import Mathlib

/-!
Verification development for the knoweak risk-management REST API.

The Python sources are shallowly embedded: request bodies become association
lists of JSON values, ORM rows become structures, SQLAlchemy queries become
list comprehensions (bind and filter), and each HTTP handler becomes a total
function returning an explicit result value (not found, unprocessable with a
list of field errors, created, or ok).  Real-number arithmetic of the risk
formulas is modelled exactly with rationals.
-/

namespace Knoweak

/-- Values occurring in a JSON request body. -/
inductive JsonValue where
  | null : JsonValue
  | str : String → JsonValue
  | num : Int → JsonValue
  | bool : Bool → JsonValue
  deriving DecidableEq, Repr

/-- A JSON object of a request body (Python dict), as an association list. -/
abbrev Media := List (String × JsonValue)

/-- Lookup of a key in a request body, mirroring Python dict get. -/
def mediaGet (m : Media) (k : String) : Option JsonValue :=
  (m.find? (fun kv => kv.1 == k)).map (fun kv => kv.2)

/-- Python truthiness of a JSON value (used by checks of the form `if value and ...`). -/
def JsonValue.truthy : JsonValue → Bool
  | .null => false
  | .str s => !s.isEmpty
  | .num n => n != 0
  | .bool b => b

/-- Error codes used by the controllers (from the errors module of the repository;
mirrored from the build_error call sites present in the source tree). -/
inductive Message where
  | err_no_content
  | err_name_cannot_be_null
  | err_name_cannot_be_empty
  | err_name_max_length
  | err_name_already_exists
  | err_invalid_value_type
  | err_field_cannot_be_null
  | err_field_max_length
  | err_field_min_length
  | err_field_value_invalid
  | err_field_value_already_exists
  deriving DecidableEq, Repr

/-- A structured field-level validation error as produced by build_error. -/
structure ErrorItem where
  message : Message
  field_name : Option String
  deriving DecidableEq, Repr

/-- Mirrors build_error(message, field_name=...) from the errors module. -/
def build_error (m : Message) (field : Option String) : ErrorItem :=
  ⟨m, field⟩

/-- From src/src/app_constants.py. -/
def GENERAL_NAME_MAX_LENGTH : Nat := 128

/-- Modelled from the spec: the constants module of knoweak/api is not in the source
tree; the description length bound is some fixed positive limit whose exact value no
claim depends on. -/
def GENERAL_DESCRIPTION_MAX_LENGTH : Nat := 4000

/-- Modelled from the spec: the constants module of knoweak/api is not in the source
tree; the email length bound is some fixed positive limit whose exact value no claim
depends on. -/
def EMAIL_MAX_LENGTH : Nat := 128

/-- Modelled from the spec: the constants module of knoweak/api is not in the source
tree; the password minimum length is some fixed positive limit whose exact value no
claim depends on. -/
def PASSWORD_MIN_LENGTH : Nat := 8

/-- Modelled from the spec: validate_str from knoweak/api/utils.py is not in the
source tree.  Per the validation rules of the spec (missing mandatory field, wrong
type, length violation, uniqueness violation reported as 422 field errors) it returns
at most one error for a string field: a missing or null mandatory value, a value of a
non-string type, a string longer than the maximum or shorter than the minimum length,
or a string the exists strategy recognises as a duplicate. -/
def validate_str (field : String) (value : Option JsonValue) (mandatory : Bool)
    (min_length : Option Nat) (max_length : Option Nat) (exists_found : Bool) :
    Option ErrorItem :=
  match value with
  | none =>
      if mandatory then some (build_error .err_field_cannot_be_null (some field)) else none
  | some .null =>
      if mandatory then some (build_error .err_field_cannot_be_null (some field)) else none
  | some (.str s) =>
      if (match max_length with | some m => decide (m < s.length) | none => false) then
        some (build_error .err_field_max_length (some field))
      else if (match min_length with | some m => decide (s.length < m) | none => false) then
        some (build_error .err_field_min_length (some field))
      else if exists_found then
        some (build_error .err_field_value_already_exists (some field))
      else none
  | some _ => some (build_error .err_invalid_value_type (some field))

/-! Relational schema.

Modelled from the spec: the module knoweak/db/models/organization.py is not in the
source tree.  Per the data model section of the spec, organization-scoped rows are
chained by foreign keys (asset to service to process to macroprocess to department to
organization), the service-asset link row carries its own relevance level, security
threats and asset vulnerabilities are organization-scoped, and names of catalog
entities are reachable from the instance rows (carried denormalized here). -/

/-- Root scope entity, identified by a code. -/
structure Organization where
  id : Nat
  deriving DecidableEq, Repr

/-- Organization-scoped department instance. -/
structure OrganizationDepartment where
  id : Nat
  organization_id : Nat
  department_name : String
  deriving DecidableEq, Repr

/-- Organization-scoped macroprocess instance, owned by a department instance. -/
structure OrganizationMacroprocess where
  id : Nat
  organization_department_id : Nat
  macroprocess_name : String
  deriving DecidableEq, Repr

/-- Organization-scoped process instance, owned by a macroprocess instance. -/
structure OrganizationProcess where
  id : Nat
  organization_macroprocess_id : Nat
  process_name : String
  relevance_level_id : Nat
  deriving DecidableEq, Repr

/-- Organization-scoped IT service instance, owned by a process instance. -/
structure OrganizationITService where
  id : Nat
  organization_process_id : Nat
  it_service_name : String
  relevance_level_id : Nat
  deriving DecidableEq, Repr

/-- Organization-scoped IT asset instance. -/
structure OrganizationITAsset where
  id : Nat
  it_asset_name : String
  deriving DecidableEq, Repr

/-- Join row linking an IT service instance to an IT asset instance, carrying its own
relevance level. -/
structure OrganizationITServiceITAsset where
  it_service_instance_id : Nat
  it_asset_instance_id : Nat
  relevance_level_id : Nat
  deriving DecidableEq, Repr

/-- Organization-scoped security threat with a threat level. -/
structure OrganizationSecurityThreat where
  id : Nat
  organization_id : Nat
  security_threat_id : Nat
  security_threat_name : String
  threat_level_id : Nat
  created_on : Nat
  deriving DecidableEq, Repr

/-- Organization-scoped vulnerability of an IT asset instance. -/
structure OrganizationITAssetVulnerability where
  id : Nat
  organization_id : Nat
  it_asset_instance_id : Nat
  vulnerability_level_id : Nat
  deriving DecidableEq, Repr

/-- The tables relevant to the embedded handlers. -/
structure Database where
  organizations : List Organization
  organization_departments : List OrganizationDepartment
  organization_macroprocesses : List OrganizationMacroprocess
  organization_processes : List OrganizationProcess
  organization_it_services : List OrganizationITService
  organization_it_assets : List OrganizationITAsset
  organization_it_service_it_assets : List OrganizationITServiceITAsset
  organization_security_threats : List OrganizationSecurityThreat
  organization_it_asset_vulnerabilities : List OrganizationITAssetVulnerability
  deriving DecidableEq, Repr

/-- One row of the analysis query of process_analysis: the six selected entities plus
the joined organization, asset and service rows reachable from the relationships used
by the loop body. -/
structure AnalysisQueryRow where
  service_asset : OrganizationITServiceITAsset
  it_asset : OrganizationITAsset
  it_service : OrganizationITService
  process : OrganizationProcess
  macroprocess : OrganizationMacroprocess
  department : OrganizationDepartment
  organization : Organization
  security_threat : OrganizationSecurityThreat
  vulnerability : OrganizationITAssetVulnerability
  deriving DecidableEq, Repr

/-- The join chain of the query in process_analysis (organization_analysis.py lines
170 to 184): service-asset links joined to assets, services, processes,
macroprocesses, departments, the organization, its security threats and the
vulnerabilities of the joined asset. -/
def analysis_join (db : Database) : List AnalysisQueryRow :=
  db.organization_it_service_it_assets.flatMap fun sa =>
  db.organization_it_assets.flatMap fun a =>
  db.organization_it_services.flatMap fun s =>
  db.organization_processes.flatMap fun p =>
  db.organization_macroprocesses.flatMap fun mp =>
  db.organization_departments.flatMap fun d =>
  db.organizations.flatMap fun o =>
  db.organization_security_threats.flatMap fun st =>
  db.organization_it_asset_vulnerabilities.flatMap fun v =>
    if sa.it_asset_instance_id == a.id
        && sa.it_service_instance_id == s.id
        && s.organization_process_id == p.id
        && p.organization_macroprocess_id == mp.id
        && mp.organization_department_id == d.id
        && d.organization_id == o.id
        && st.organization_id == o.id
        && v.organization_id == o.id
        && v.it_asset_instance_id == a.id
    then [⟨sa, a, s, p, mp, d, o, st, v⟩] else []

/-- The filters of the query in process_analysis (organization_analysis.py lines 185
to 190): every rating along the chain strictly positive and the organization equal to
the requested one. -/
def analysis_query (db : Database) (organization_id : Nat) : List AnalysisQueryRow :=
  (analysis_join db).filter fun row =>
    decide (0 < row.service_asset.relevance_level_id)
    && decide (0 < row.it_service.relevance_level_id)
    && decide (0 < row.process.relevance_level_id)
    && decide (0 < row.security_threat.threat_level_id)
    && decide (0 < row.vulnerability.vulnerability_level_id)
    && row.organization.id == organization_id

/-- Impact formula of organization_analysis.py line 213, with exact rational
arithmetic in place of Python float division. -/
def calculated_impact (it_asset_relevance it_service_relevance process_relevance : Nat) : ℚ :=
  ((it_asset_relevance : ℚ) / 5) * ((it_service_relevance : ℚ) / 5) * ((process_relevance : ℚ) / 5)

/-- Probability formula of organization_analysis.py line 214. -/
def calculated_probability (it_asset_vulnerability_level security_threat_level : Nat) : ℚ :=
  ((it_asset_vulnerability_level : ℚ) / 5) * ((security_threat_level : ℚ) / 5)

/-- Risk formula of organization_analysis.py line 215. -/
def calculated_risk (impact probability : ℚ) : ℚ :=
  impact * probability

/-- One detail row of an analysis, with denormalized names, the five copied source
levels and the three computed metrics. -/
structure OrganizationAnalysisDetail where
  it_asset_name : String
  it_service_name : String
  process_name : String
  macroprocess_name : String
  department_name : String
  security_threat_name : String
  it_asset_relevance : Nat
  it_service_relevance : Nat
  process_relevance : Nat
  security_threat_level : Nat
  it_asset_vulnerability_level : Nat
  calculated_impact : ℚ
  calculated_probability : ℚ
  calculated_risk : ℚ
  deriving DecidableEq, Repr

/-- An analysis record with its owned detail rows. -/
structure OrganizationAnalysis where
  id : Nat
  organization_id : Nat
  created_on : Nat
  description : Option String
  analysis_performed_on : Option Nat
  total_processed_items : Nat
  details : List OrganizationAnalysisDetail
  deriving DecidableEq, Repr

/-- Loop body of process_analysis (organization_analysis.py lines 195 to 215): copy
the denormalized names and the five levels from the joined rows and compute the three
metrics from the copied levels. -/
def make_detail (row : AnalysisQueryRow) : OrganizationAnalysisDetail :=
  { it_asset_name := row.it_asset.it_asset_name
    it_service_name := row.it_service.it_service_name
    process_name := row.process.process_name
    macroprocess_name := row.macroprocess.macroprocess_name
    department_name := row.department.department_name
    security_threat_name := row.security_threat.security_threat_name
    it_asset_relevance := row.service_asset.relevance_level_id
    it_service_relevance := row.it_service.relevance_level_id
    process_relevance := row.process.relevance_level_id
    security_threat_level := row.security_threat.threat_level_id
    it_asset_vulnerability_level := row.vulnerability.vulnerability_level_id
    calculated_impact :=
      calculated_impact row.service_asset.relevance_level_id
        row.it_service.relevance_level_id row.process.relevance_level_id
    calculated_probability :=
      calculated_probability row.vulnerability.vulnerability_level_id
        row.security_threat.threat_level_id
    calculated_risk :=
      calculated_risk
        (calculated_impact row.service_asset.relevance_level_id
          row.it_service.relevance_level_id row.process.relevance_level_id)
        (calculated_probability row.vulnerability.vulnerability_level_id
          row.security_threat.threat_level_id) }

/-- Embedding of process_analysis (organization_analysis.py lines 169 to 220): run
the query, append one detail per resulting row to the analysis, count the appended
rows, and return the count together with the updated analysis. -/
def process_analysis (db : Database) (analysis : OrganizationAnalysis)
    (organization_id : Nat) : Nat × OrganizationAnalysis :=
  (analysis_query db organization_id).foldl
    (fun acc row =>
      (acc.1 + 1, { acc.2 with details := acc.2.details ++ [make_detail row] }))
    (0, analysis)

/-- Outcome of a PATCH handler: 404, 422 with the errors and the unchanged record,
an uncaught exception propagating as a 5xx, or 200 with the resulting record. -/
inductive PatchResult (α : Type) where
  | not_found : PatchResult α
  | unprocessable : List ErrorItem → α → PatchResult α
  | server_error : PatchResult α
  | ok : α → PatchResult α
  deriving DecidableEq, Repr

/-- Outcome of a POST handler: 422 with the errors (nothing inserted), or 201 with
the table rows after the insert. -/
inductive PostResult (α : Type) where
  | unprocessable : List ErrorItem → PostResult α
  | created : α → PostResult α
  deriving DecidableEq, Repr

namespace OrganizationAnalysisApi

/-- Embedding of validate_patch from knoweak/api/resources/organization_analysis.py
(lines 143 to 158): an empty body yields the no-content error, otherwise an informed
description is validated as an optional string with a maximum length. -/
def validate_patch (request_media : Media) : List ErrorItem :=
  if request_media.isEmpty then [build_error .err_no_content none]
  else if (mediaGet request_media "description").isSome then
    match validate_str "description" (mediaGet request_media "description") false
        none (some GENERAL_DESCRIPTION_MAX_LENGTH) false with
    | some e => [e]
    | none => []
  else []

/-- Modelled from the spec: patch_item from knoweak/api/utils.py is not in the source
tree.  Per the spec (an analysis is immutable once created except for its description
field), applied with the whitelist consisting only of description it copies exactly
an informed description value into the record and touches nothing else. -/
def apply_description (analysis : OrganizationAnalysis) (request_media : Media) :
    OrganizationAnalysis :=
  match mediaGet request_media "description" with
  | some .null => { analysis with description := none }
  | some (.str s) => { analysis with description := some s }
  | _ => analysis

/-- Embedding of Item.on_patch from knoweak/api/resources/organization_analysis.py
(lines 99 to 123), applied to the record found for the path (none models a missing
analysis): validate, reject with 422 on errors, otherwise patch the description. -/
def item_on_patch (found : Option OrganizationAnalysis) (request_media : Media) :
    PatchResult OrganizationAnalysis :=
  match found with
  | none => .not_found
  | some analysis =>
      let errors := validate_patch request_media
      if errors.isEmpty then .ok (apply_description analysis request_media)
      else .unprocessable errors analysis

end OrganizationAnalysisApi

/-- A department of the catalog (models module of the src tree, not included there;
fields mirrored from the controller usage: id, name, creation and modification
timestamps). -/
structure BusinessDepartment where
  id : Nat
  name : String
  created_on : Nat
  last_modified_on : Option Nat
  deriving DecidableEq, Repr

/-- Model of the Python string method strip used by the department controller:
remove the leading and trailing whitespace of a string (written on the character
list so that it evaluates by kernel reduction). -/
def strip (s : String) : String :=
  ⟨((s.data.dropWhile Char.isWhitespace).reverse.dropWhile Char.isWhitespace).reverse⟩

namespace DepartmentApi

/-- Embedding of validate_post from src/src/controllers/department.py (lines 103 to
128): the name is mandatory, must be a string, is trimmed, must be nonempty and
within the length limit after trimming, and must not equal an already stored name. -/
def validate_post (request_media : Media) (db : List BusinessDepartment) :
    List ErrorItem :=
  match mediaGet request_media "name" with
  | none => [build_error .err_name_cannot_be_null (some "name")]
  | some .null => [build_error .err_name_cannot_be_null (some "name")]
  | some (.str s) =>
      let name := strip s
      if name.isEmpty then [build_error .err_name_cannot_be_empty (some "name")]
      else if decide (GENERAL_NAME_MAX_LENGTH < name.length) then
        [build_error .err_name_max_length (some "name")]
      else if db.any (fun d => d.name == name) then
        [build_error .err_name_already_exists (some "name")]
      else []
  | some _ => [build_error .err_invalid_value_type (some "name")]

/-- Embedding of Collection.on_post from src/src/controllers/department.py (lines 29
to 50): validate against the stored departments, reject with 422 on errors without
touching the table, otherwise insert a department with the trimmed name. -/
def collection_on_post (request_media : Media) (db : List BusinessDepartment)
    (new_id : Nat) (now : Nat) : PostResult (List BusinessDepartment) :=
  let errors := validate_post request_media db
  if errors.isEmpty then
    match mediaGet request_media "name" with
    | some (.str s) => .created (db ++ [⟨new_id, strip s, now, none⟩])
    | _ => .created db
  else .unprocessable errors

/-- Embedding of validate_patch from src/src/controllers/department.py (lines 131 to
155): an empty body yields the no-content error; an informed name must not be null,
must be within the length limit and must not equal a stored name.  The source calls
len on the raw value, so a non-null non-string name raises an uncaught TypeError,
modelled as none. -/
def validate_patch (request_media : Media) (db : List BusinessDepartment) :
    Option (List ErrorItem) :=
  if request_media.isEmpty then some [build_error .err_no_content none]
  else if (mediaGet request_media "name").isSome then
    match mediaGet request_media "name" with
    | some .null => some [build_error .err_name_cannot_be_null none]
    | some (.str n) =>
        if decide (GENERAL_NAME_MAX_LENGTH < n.length) then
          some [build_error .err_name_max_length none]
        else if db.any (fun d => d.name == n) then
          some [build_error .err_name_already_exists none]
        else some []
    | _ => none
  else some []

/-- Embedding of Item.on_patch from src/src/controllers/department.py (lines 70 to
100): validate, reject with 422 on errors, otherwise apply an informed name and set
the modification timestamp only when the record changed. -/
def item_on_patch (found : Option BusinessDepartment) (request_media : Media)
    (db : List BusinessDepartment) (now : Nat) : PatchResult BusinessDepartment :=
  match found with
  | none => .not_found
  | some department =>
      match validate_patch request_media db with
      | none => .server_error
      | some errors =>
          if errors.isEmpty then
            let patched :=
              match mediaGet request_media "name" with
              | some (.str n) => { department with name := n }
              | _ => department
            if patched ≠ department then
              .ok { patched with last_modified_on := some now }
            else .ok patched
          else .unprocessable errors department

end DepartmentApi

namespace OrganizationSecurityThreatApi

/-- Embedding of Collection.on_get from
knoweak/controllers/organization_security_threat.py (lines 12 to 37): a missing
organization yields 404 (none); otherwise the query selects
OrganizationSecurityThreat entities while filtering on Organization.id without any
join between the two tables, which SQL evaluates as a cross join of the threat table
with the organization table — every stored threat row paired with the requested
organization survives the filter, whatever its own organization_id. -/
def collection_on_get (db : Database) (organization_code : Nat) :
    Option (List OrganizationSecurityThreat) :=
  if db.organizations.any (fun o => o.id == organization_code) then
    some
      (((db.organization_security_threats.flatMap
          (fun t => db.organizations.map (fun o => (t, o)))).filter
        (fun p => p.2.id == organization_code)).map (fun p => p.1))
  else none

/-- Embedding of validate_patch from
knoweak/controllers/organization_security_threat.py (lines 159 to 175): an empty body
yields the no-content error; an informed truthy threat level must be a stored rating
level id. -/
def validate_patch (request_media : Media) (rating_levels : List Int) :
    List ErrorItem :=
  if request_media.isEmpty then [build_error .err_no_content none]
  else if (mediaGet request_media "threat_level_id").isSome then
    match mediaGet request_media "threat_level_id" with
    | some v =>
        if v.truthy
            && !(match v with | .num n => rating_levels.contains n | _ => false) then
          [build_error .err_field_value_invalid (some "threatLevelId")]
        else []
    | none => []
  else []

/-- Embedding of Item.on_patch from
knoweak/controllers/organization_security_threat.py (lines 90 to 115): validate,
reject with 422 on errors, otherwise apply an informed threat level (a null value
clears the rating, modelled as level 0, the unrated state of the spec glossary). -/
def item_on_patch (found : Option OrganizationSecurityThreat) (request_media : Media)
    (rating_levels : List Int) : PatchResult OrganizationSecurityThreat :=
  match found with
  | none => .not_found
  | some security_threat =>
      let errors := validate_patch request_media rating_levels
      if errors.isEmpty then
        .ok (match mediaGet request_media "threat_level_id" with
          | some (.num n) => { security_threat with threat_level_id := n.toNat }
          | some .null => { security_threat with threat_level_id := 0 }
          | _ => security_threat)
      else .unprocessable errors security_threat

end OrganizationSecurityThreatApi

/-- An IT asset category of the catalog (models module not included in the source
tree; fields mirrored from the controller usage). -/
structure ITAssetCategory where
  id : Nat
  name : String
  deriving DecidableEq, Repr

namespace ITAssetCategoryApi

/-- Embedding of validate_patch from knoweak/controllers/it_asset_category.py (lines
131 to 149): an empty body yields the no-content error; an informed name is validated
as a mandatory string with a maximum length and a uniqueness check against the stored
category names. -/
def validate_patch (request_media : Media) (catalog_names : List String) :
    List ErrorItem :=
  if request_media.isEmpty then [build_error .err_no_content none]
  else if (mediaGet request_media "name").isSome then
    match validate_str "name" (mediaGet request_media "name") true
        none (some GENERAL_NAME_MAX_LENGTH)
        (match mediaGet request_media "name" with
          | some (.str s) => catalog_names.contains s
          | _ => false) with
    | some e => [e]
    | none => []
  else []

/-- Embedding of Item.on_patch from knoweak/controllers/it_asset_category.py (lines
75 to 99): validate, reject with 422 on errors, otherwise apply an informed name. -/
def item_on_patch (found : Option ITAssetCategory) (request_media : Media)
    (catalog_names : List String) : PatchResult ITAssetCategory :=
  match found with
  | none => .not_found
  | some category =>
      let errors := validate_patch request_media catalog_names
      if errors.isEmpty then
        .ok (match mediaGet request_media "name" with
          | some (.str s) => { category with name := s }
          | _ => category)
      else .unprocessable errors category

end ITAssetCategoryApi

/-- A system user row (models module not included in the source tree; fields
mirrored from the controller usage), with the role associations carried as pairs of
role id and role name. -/
structure SystemUser where
  id : Nat
  email : String
  full_name : String
  hashed_password : String
  blocked_on : Option Nat
  locked_out_on : Option Nat
  created_on : Nat
  last_modified_on : Option Nat
  roles : List (Nat × String)
  deriving DecidableEq, Repr

/-- The serialized representation of a system user: every column of the row except
hashed_password, with the roles restricted to id and name. -/
structure SystemUserView where
  id : Nat
  email : String
  full_name : String
  blocked_on : Option Nat
  locked_out_on : Option Nat
  created_on : Nat
  last_modified_on : Option Nat
  roles : List (Nat × String)
  deriving DecidableEq, Repr

namespace SystemUserApi

/-- Embedding of custom_asdict from knoweak/api/resources/system_user.py (lines 253
to 257), the serializer used by every system-user endpoint (GET single, GET list,
POST, PATCH): asdict with hashed_password excluded and the roles followed with only
id and name.  The external asdict of the ORM layer is modelled as emitting every
remaining column of the row. -/
def custom_asdict (u : SystemUser) : SystemUserView :=
  { id := u.id
    email := u.email
    full_name := u.full_name
    blocked_on := u.blocked_on
    locked_out_on := u.locked_out_on
    created_on := u.created_on
    last_modified_on := u.last_modified_on
    roles := u.roles }

/-- Embedding of validate_patch from knoweak/api/resources/system_user.py (lines 177
to 215): an empty body yields the no-content error; informed full name, email and
password fields are validated as mandatory strings with their length limits, the
email additionally against the stored emails. -/
def validate_patch (request_media : Media) (db_emails : List String) :
    List ErrorItem :=
  if request_media.isEmpty then [build_error .err_no_content none]
  else
    (if (mediaGet request_media "full_name").isSome then
      match validate_str "fullName" (mediaGet request_media "full_name") true
          none (some GENERAL_NAME_MAX_LENGTH) false with
      | some e => [e]
      | none => []
    else [])
    ++ (if (mediaGet request_media "email").isSome then
      match validate_str "email" (mediaGet request_media "email") true
          none (some EMAIL_MAX_LENGTH)
          (match mediaGet request_media "email" with
            | some (.str s) => db_emails.contains s
            | _ => false) with
      | some e => [e]
      | none => []
    else [])
    ++ (if (mediaGet request_media "password").isSome then
      match validate_str "password" (mediaGet request_media "password") true
          (some PASSWORD_MIN_LENGTH) none false with
      | some e => [e]
      | none => []
    else [])

/-- Embedding of Item.on_patch from knoweak/api/resources/system_user.py (lines 86
to 126): validate, reject with 422 on errors, otherwise apply informed email and
full name, rehash an informed password (the external bcrypt call is passed in as the
function hashpw), apply a block or unblock request and an unlock request. -/
def item_on_patch (found : Option SystemUser) (request_media : Media)
    (db_emails : List String) (hashpw : String → String) (now : Nat) :
    PatchResult SystemUser :=
  match found with
  | none => .not_found
  | some user =>
      let errors := validate_patch request_media db_emails
      if errors.isEmpty then
        let u1 := match mediaGet request_media "email" with
          | some (.str s) => { user with email := s }
          | _ => user
        let u2 := match mediaGet request_media "full_name" with
          | some (.str s) => { u1 with full_name := s }
          | _ => u1
        let u3 := match mediaGet request_media "password" with
          | some (.str s) =>
              { u2 with hashed_password := hashpw s, last_modified_on := some now }
          | _ => u2
        let u4 := match mediaGet request_media "is_blocked" with
          | some (.bool true) =>
              if u3.blocked_on = none then
                { u3 with blocked_on := some now, last_modified_on := some now }
              else u3
          | some (.bool false) =>
              if u3.blocked_on ≠ none then
                { u3 with blocked_on := none, last_modified_on := some now }
              else u3
          | _ => u3
        let u5 := if mediaGet request_media "unlock" == some (.bool true) then
            { u4 with locked_out_on := none, last_modified_on := some now }
          else u4
        .ok u5
      else .unprocessable errors user

end SystemUserApi

/-! Concrete sample data used to witness the theorems below. -/

/-- Sample analysis record, freshly created and still without details. -/
def aEx : OrganizationAnalysis :=
  ⟨1, 1, 0, none, none, 0, []⟩

/-- Sample database realizing the chain with ratings asset 1, service 5, process 5,
vulnerability 1, threat 5 (the second worked example of the spec). -/
def dbEx : Database :=
  { organizations := [⟨1⟩]
    organization_departments := [⟨10, 1, "Finance"⟩]
    organization_macroprocesses := [⟨20, 10, "Planning"⟩]
    organization_processes := [⟨30, 20, "Budgeting", 5⟩]
    organization_it_services := [⟨40, 30, "Email", 5⟩]
    organization_it_assets := [⟨50, "Server"⟩]
    organization_it_service_it_assets := [⟨40, 50, 1⟩]
    organization_security_threats := [⟨60, 1, 7, "Phishing", 5, 0⟩]
    organization_it_asset_vulnerabilities := [⟨70, 1, 50, 1⟩] }

/-- The single row the analysis query produces on dbEx. -/
def rowEx : AnalysisQueryRow :=
  ⟨⟨40, 50, 1⟩, ⟨50, "Server"⟩, ⟨40, 30, "Email", 5⟩, ⟨30, 20, "Budgeting", 5⟩,
    ⟨20, 10, "Planning"⟩, ⟨10, 1, "Finance"⟩, ⟨1⟩, ⟨60, 1, 7, "Phishing", 5, 0⟩,
    ⟨70, 1, 50, 1⟩⟩

/-- The detail computed from rowEx. -/
def dEx : OrganizationAnalysisDetail :=
  make_detail rowEx

/-- Sample database realizing the chain with every rating equal to 5 (the first
worked example of the spec). -/
def dbEx5 : Database :=
  { dbEx with
    organization_it_service_it_assets := [⟨40, 50, 5⟩]
    organization_it_asset_vulnerabilities := [⟨70, 1, 50, 5⟩] }

/-- Sample database identical to dbEx except that the process rating is 0. -/
def dbZero : Database :=
  { dbEx with organization_processes := [⟨30, 20, "Budgeting", 0⟩] }

/-- The row of the join of dbZero, carrying the zero process rating. -/
def rowZero : AnalysisQueryRow :=
  ⟨⟨40, 50, 1⟩, ⟨50, "Server"⟩, ⟨40, 30, "Email", 5⟩, ⟨30, 20, "Budgeting", 0⟩,
    ⟨20, 10, "Planning"⟩, ⟨10, 1, "Finance"⟩, ⟨1⟩, ⟨60, 1, 7, "Phishing", 5, 0⟩,
    ⟨70, 1, 50, 1⟩⟩

/-- A database with every table empty. -/
def dbEmpty : Database :=
  ⟨[], [], [], [], [], [], [], [], []⟩

/-! Helper lemmas. -/

/-- Unfolding of the accumulation loop of process_analysis. -/
theorem process_analysis_foldl (l : List AnalysisQueryRow) (n : Nat)
    (a : OrganizationAnalysis) :
    l.foldl
        (fun acc row =>
          (acc.1 + 1, { acc.2 with details := acc.2.details ++ [make_detail row] }))
        (n, a)
      = (n + l.length, { a with details := a.details ++ l.map make_detail }) := by
  induction l generalizing n a with
  | nil => simp
  | cons x xs ih =>
      rw [List.foldl_cons, ih]
      simp [List.append_assoc]
      omega

/-- Closed form of process_analysis: the count is the length of the query result and
the details appended are exactly the mapped query rows. -/
theorem process_analysis_eq (db : Database) (a : OrganizationAnalysis) (org : Nat) :
    process_analysis db a org
      = ((analysis_query db org).length,
         { a with details := a.details ++ (analysis_query db org).map make_detail }) := by
  unfold process_analysis
  rw [process_analysis_foldl]
  simp

/-- A rating divided by five lies in the unit interval whenever the rating is at
most five. -/
theorem unit_factor (n : Nat) (h : n ≤ 5) : 0 ≤ (n : ℚ) / 5 ∧ (n : ℚ) / 5 ≤ 1 := by
  constructor
  · positivity
  · rw [div_le_one (by norm_num)]
    exact_mod_cast h

/-! Claim theorems. -/

/-- C1: for every qualifying combination processed by process_analysis, the detail
row it emits satisfies impact = (it_asset_relevance/5) * (it_service_relevance/5) *
(process_relevance/5), probability = (it_asset_vulnerability_level/5) *
(security_threat_level/5), and risk = impact * probability, where the five levels are
the ones copied from the source rows into the detail. -/
theorem process_analysis_detail_formulas (db : Database) (a : OrganizationAnalysis)
    (org : Nat) (d : OrganizationAnalysisDetail) (h0 : a.details = [])
    (hd : d ∈ (process_analysis db a org).2.details) :
    d.calculated_impact
        = ((d.it_asset_relevance : ℚ) / 5) * ((d.it_service_relevance : ℚ) / 5)
            * ((d.process_relevance : ℚ) / 5)
      ∧ d.calculated_probability
        = ((d.it_asset_vulnerability_level : ℚ) / 5) * ((d.security_threat_level : ℚ) / 5)
      ∧ d.calculated_risk = d.calculated_impact * d.calculated_probability := by
  rw [process_analysis_eq] at hd
  simp only [h0, List.nil_append, List.mem_map] at hd
  obtain ⟨row, hrow, rfl⟩ := hd
  refine ⟨?_, ?_, ?_⟩ <;>
    simp [make_detail, calculated_impact, calculated_probability, calculated_risk]

/-- Witness for C1 on the sample database. -/
theorem process_analysis_detail_formulas_witness :
    aEx.details = []
      ∧ (dEx.calculated_impact
          = ((dEx.it_asset_relevance : ℚ) / 5) * ((dEx.it_service_relevance : ℚ) / 5)
              * ((dEx.process_relevance : ℚ) / 5)
        ∧ dEx.calculated_probability
          = ((dEx.it_asset_vulnerability_level : ℚ) / 5)
              * ((dEx.security_threat_level : ℚ) / 5)
        ∧ dEx.calculated_risk = dEx.calculated_impact * dEx.calculated_probability) :=
  ⟨rfl,
    process_analysis_detail_formulas dbEx aEx 1 dEx rfl
      (by
        rw [process_analysis_eq]
        simp [aEx, show analysis_query dbEx 1 = [rowEx] from by decide, dEx])⟩

/-- C2: process_analysis produces a detail row only when all five ratings along the
chain are strictly greater than zero: every emitted detail stores each level at least
1, and a joined combination with some rating equal to 0 does not pass the query
filter and so yields no detail. -/
theorem process_analysis_zero_excluded :
    (∀ (db : Database) (a : OrganizationAnalysis) (org : Nat)
        (d : OrganizationAnalysisDetail),
        a.details = [] → d ∈ (process_analysis db a org).2.details →
          1 ≤ d.it_asset_relevance ∧ 1 ≤ d.it_service_relevance
            ∧ 1 ≤ d.process_relevance ∧ 1 ≤ d.security_threat_level
            ∧ 1 ≤ d.it_asset_vulnerability_level)
    ∧ (∀ (db : Database) (org : Nat) (row : AnalysisQueryRow),
        (row.service_asset.relevance_level_id = 0
            ∨ row.it_service.relevance_level_id = 0
            ∨ row.process.relevance_level_id = 0
            ∨ row.security_threat.threat_level_id = 0
            ∨ row.vulnerability.vulnerability_level_id = 0) →
        row ∉ analysis_query db org) := by
  constructor
  · intro db a org d h0 hd
    rw [process_analysis_eq] at hd
    simp only [h0, List.nil_append, List.mem_map] at hd
    obtain ⟨row, hrow, rfl⟩ := hd
    have hp := (List.mem_filter.mp hrow).2
    simp only [Bool.and_eq_true, decide_eq_true_eq] at hp
    simp only [make_detail]
    omega
  · intro db org row hzero hmem
    have hp := (List.mem_filter.mp hmem).2
    simp only [Bool.and_eq_true, decide_eq_true_eq] at hp
    omega

/-- Witness for C2: the rating-1 boundary is included on the sample database and the
rating-0 combination of the zero-rated database is excluded. -/
theorem process_analysis_zero_excluded_witness :
    (aEx.details = []
      ∧ 1 ≤ dEx.it_asset_relevance ∧ 1 ≤ dEx.it_service_relevance
      ∧ 1 ≤ dEx.process_relevance ∧ 1 ≤ dEx.security_threat_level
      ∧ 1 ≤ dEx.it_asset_vulnerability_level)
    ∧ (rowZero.process.relevance_level_id = 0 ∧ rowZero ∉ analysis_query dbZero 1) :=
  ⟨⟨rfl,
    process_analysis_zero_excluded.1 dbEx aEx 1 dEx rfl
      (by
        rw [process_analysis_eq]
        simp [aEx, show analysis_query dbEx 1 = [rowEx] from by decide, dEx])⟩,
   ⟨by decide,
    process_analysis_zero_excluded.2 dbZero 1 rowZero (by decide)⟩⟩

/-- C3: the value returned by process_analysis equals the number of detail rows
appended to the analysis, one per qualifying combination of the query; when no
combination qualifies it returns 0 with an empty detail collection (the function is
total, so no error is possible). -/
theorem process_analysis_count_matches_details (db : Database)
    (a : OrganizationAnalysis) (org : Nat) (h0 : a.details = []) :
    (process_analysis db a org).1 = (process_analysis db a org).2.details.length
      ∧ (process_analysis db a org).1 = (analysis_query db org).length
      ∧ (analysis_query db org = [] →
          (process_analysis db a org).1 = 0
            ∧ (process_analysis db a org).2.details = []) := by
  rw [process_analysis_eq]
  refine ⟨by simp [h0], by simp, fun h => by simp [h0, h]⟩

/-- Witness for C3 on the sample database and on the empty database. -/
theorem process_analysis_count_matches_details_witness :
    (aEx.details = []
      ∧ (process_analysis dbEx aEx 1).1
          = (process_analysis dbEx aEx 1).2.details.length)
    ∧ (analysis_query dbEmpty 1 = []
      ∧ (process_analysis dbEmpty aEx 1).1 = 0
      ∧ (process_analysis dbEmpty aEx 1).2.details = []) :=
  ⟨⟨rfl, (process_analysis_count_matches_details dbEx aEx 1 rfl).1⟩,
   ⟨by decide,
    (process_analysis_count_matches_details dbEmpty aEx 1 rfl).2.2 (by decide)⟩⟩

/-- C4: for every detail computed by process_analysis from ratings each at most 5,
the stored risk equals the product of the stored impact and probability, and both
impact and probability lie in the closed interval from 0 to 1 (the lower bound 1 on
the ratings is automatic from the query filter). -/
theorem analysis_detail_risk_bounds (db : Database) (a : OrganizationAnalysis)
    (org : Nat) (d : OrganizationAnalysisDetail) (h0 : a.details = [])
    (hd : d ∈ (process_analysis db a org).2.details)
    (h5 : d.it_asset_relevance ≤ 5 ∧ d.it_service_relevance ≤ 5
      ∧ d.process_relevance ≤ 5 ∧ d.security_threat_level ≤ 5
      ∧ d.it_asset_vulnerability_level ≤ 5) :
    d.calculated_risk = d.calculated_impact * d.calculated_probability
      ∧ 0 ≤ d.calculated_impact ∧ d.calculated_impact ≤ 1
      ∧ 0 ≤ d.calculated_probability ∧ d.calculated_probability ≤ 1 := by
  rw [process_analysis_eq] at hd
  simp only [h0, List.nil_append, List.mem_map] at hd
  obtain ⟨row, hrow, rfl⟩ := hd
  simp only [make_detail] at h5 ⊢
  obtain ⟨h1, h2, h3, h4, h5v⟩ := h5
  obtain ⟨a1, b1⟩ := unit_factor _ h1
  obtain ⟨a2, b2⟩ := unit_factor _ h2
  obtain ⟨a3, b3⟩ := unit_factor _ h3
  obtain ⟨a4, b4⟩ := unit_factor _ h4
  obtain ⟨a5, b5⟩ := unit_factor _ h5v
  refine ⟨rfl, ?_, ?_, ?_, ?_⟩ <;>
    simp only [calculated_impact, calculated_probability, calculated_risk]
  · positivity
  · exact mul_le_one₀ (mul_le_one₀ b1 a2 b2) a3 b3
  · positivity
  · exact mul_le_one₀ b5 a4 b4

/-- Witness for C4 on the sample database. -/
theorem analysis_detail_risk_bounds_witness :
    (aEx.details = []
      ∧ dEx.it_asset_relevance ≤ 5 ∧ dEx.it_service_relevance ≤ 5
      ∧ dEx.process_relevance ≤ 5 ∧ dEx.security_threat_level ≤ 5
      ∧ dEx.it_asset_vulnerability_level ≤ 5)
    ∧ (dEx.calculated_risk = dEx.calculated_impact * dEx.calculated_probability
      ∧ 0 ≤ dEx.calculated_impact ∧ dEx.calculated_impact ≤ 1
      ∧ 0 ≤ dEx.calculated_probability ∧ dEx.calculated_probability ≤ 1) :=
  ⟨⟨rfl, by decide, by decide, by decide, by decide, by decide⟩,
    analysis_detail_risk_bounds dbEx aEx 1 dEx rfl
      (by
        rw [process_analysis_eq]
        simp [aEx, show analysis_query dbEx 1 = [rowEx] from by decide, dEx])
      ⟨by decide, by decide, by decide, by decide, by decide⟩⟩

/-- C5: the risk computation of process_analysis yields impact 1.0, probability 1.0
and risk 1.0 on the all-fives chain, and impact 0.2, probability 0.2 and risk 0.04 on
the chain rated asset 1, service 5, process 5, vulnerability 1, threat 5 (exact
rational arithmetic). -/
theorem risk_computation_examples :
    ((process_analysis dbEx5 aEx 1).2.details.map
        (fun d => (d.calculated_impact, d.calculated_probability, d.calculated_risk))
      = [((1.0 : ℚ), (1.0 : ℚ), (1.0 : ℚ))])
    ∧ ((process_analysis dbEx aEx 1).2.details.map
        (fun d => (d.calculated_impact, d.calculated_probability, d.calculated_risk))
      = [((0.2 : ℚ), (0.2 : ℚ), (0.04 : ℚ))]) := by
  constructor
  · rw [process_analysis_eq]
    have h : analysis_query dbEx5 1
        = [{ rowEx with service_asset := ⟨40, 50, 5⟩, vulnerability := ⟨70, 1, 50, 5⟩ }] := by
      decide
    simp [aEx, h, make_detail, rowEx]
    norm_num [calculated_impact, calculated_probability, calculated_risk]
  · rw [process_analysis_eq]
    simp [aEx, show analysis_query dbEx 1 = [rowEx] from by decide, make_detail, rowEx]
    norm_num [calculated_impact, calculated_probability, calculated_risk]

/-- C6: for every existing analysis and every valid PATCH request, the PATCH handler
for an organization analysis changes at most the description field: the identifier,
organization, creation timestamp, performed-on date, processed-items count and the
attached detail rows are unchanged. -/
theorem analysis_patch_only_description (a r : OrganizationAnalysis) (m : Media)
    (h : OrganizationAnalysisApi.item_on_patch (some a) m = .ok r) :
    r.id = a.id ∧ r.organization_id = a.organization_id ∧ r.created_on = a.created_on
      ∧ r.analysis_performed_on = a.analysis_performed_on
      ∧ r.total_processed_items = a.total_processed_items ∧ r.details = a.details := by
  simp only [OrganizationAnalysisApi.item_on_patch] at h
  split at h
  · simp only [PatchResult.ok.injEq] at h
    subst h
    unfold OrganizationAnalysisApi.apply_description
    split <;> simp
  · simp at h

/-- Witness for C6: a PATCH setting the description leaves every other field
unchanged. -/
theorem analysis_patch_only_description_witness :
    OrganizationAnalysisApi.item_on_patch (some aEx) [("description", .str "updated")]
        = .ok { aEx with description := some "updated" }
      ∧ ({ aEx with description := some "updated" } : OrganizationAnalysis).organization_id
          = aEx.organization_id
      ∧ ({ aEx with description := some "updated" } : OrganizationAnalysis).details
          = aEx.details :=
  ⟨rfl,
    (analysis_patch_only_description aEx { aEx with description := some "updated" }
      [("description", .str "updated")] rfl).2.1,
    (analysis_patch_only_description aEx { aEx with description := some "updated" }
      [("description", .str "updated")] rfl).2.2.2.2.2⟩

/-- C7: for every entity type exposing PATCH in the source tree (organization
analysis, catalog department, organization security threat, IT asset category,
system user), a PATCH request with an empty body is rejected by the validators with
the no-content error and the handlers return 422 with the stored record unchanged. -/
theorem empty_patch_rejected_no_content :
    (OrganizationAnalysisApi.validate_patch [] = [build_error .err_no_content none])
      ∧ (∀ db : List BusinessDepartment,
          DepartmentApi.validate_patch [] db = some [build_error .err_no_content none])
      ∧ (∀ levels : List Int,
          OrganizationSecurityThreatApi.validate_patch [] levels
            = [build_error .err_no_content none])
      ∧ (∀ names : List String,
          ITAssetCategoryApi.validate_patch [] names
            = [build_error .err_no_content none])
      ∧ (∀ emails : List String,
          SystemUserApi.validate_patch [] emails = [build_error .err_no_content none])
      ∧ (∀ a : OrganizationAnalysis,
          OrganizationAnalysisApi.item_on_patch (some a) []
            = .unprocessable [build_error .err_no_content none] a)
      ∧ (∀ (d : BusinessDepartment) (db : List BusinessDepartment) (now : Nat),
          DepartmentApi.item_on_patch (some d) [] db now
            = .unprocessable [build_error .err_no_content none] d)
      ∧ (∀ (t : OrganizationSecurityThreat) (levels : List Int),
          OrganizationSecurityThreatApi.item_on_patch (some t) [] levels
            = .unprocessable [build_error .err_no_content none] t)
      ∧ (∀ (c : ITAssetCategory) (names : List String),
          ITAssetCategoryApi.item_on_patch (some c) [] names
            = .unprocessable [build_error .err_no_content none] c)
      ∧ (∀ (u : SystemUser) (emails : List String) (hashpw : String → String)
            (now : Nat),
          SystemUserApi.item_on_patch (some u) [] emails hashpw now
            = .unprocessable [build_error .err_no_content none] u) :=
  ⟨rfl, fun _ => rfl, fun _ => rfl, fun _ => rfl, fun _ => rfl, fun _ => rfl,
    fun _ _ _ => rfl, fun _ _ => rfl, fun _ _ => rfl, fun _ _ _ _ => rfl⟩

/-- C8: a POST creating a department whose name, after trimming, equals the name of
a stored department (itself well formed: nonempty and within the length limit after
trimming, as every department created through the API is) is rejected by the
validator with the uniqueness error alone, and the handler returns 422 without ever
reaching the insert, so no database-level exception can arise. -/
theorem department_duplicate_name_rejected (m : Media)
    (db : List BusinessDepartment) (s : String) (new_id now : Nat)
    (hname : mediaGet m "name" = some (.str s))
    (hne : strip s ≠ "") (hlen : (strip s).length ≤ GENERAL_NAME_MAX_LENGTH)
    (hdup : db.any (fun d => d.name == strip s) = true) :
    DepartmentApi.validate_post m db
        = [build_error .err_name_already_exists (some "name")]
      ∧ DepartmentApi.collection_on_post m db new_id now
        = .unprocessable [build_error .err_name_already_exists (some "name")] := by
  have hie : (strip s).isEmpty = false := by
    cases hh : (strip s).isEmpty
    · rfl
    · exact absurd ((String.isEmpty_iff _).mp hh) hne
  have hv : DepartmentApi.validate_post m db
      = [build_error .err_name_already_exists (some "name")] := by
    unfold DepartmentApi.validate_post
    rw [hname]
    simp only [hie, Bool.false_eq_true, if_false, hdup, if_true, decide_eq_true_eq]
    rw [if_neg (by omega)]
  refine ⟨hv, ?_⟩
  unfold DepartmentApi.collection_on_post
  rw [hv]
  rfl

/-- A one-department table used to witness the duplicate-name rejection. -/
def dbDept : List BusinessDepartment := [⟨1, "HR", 0, none⟩]

/-- Witness for C8: posting a department named HR with surrounding whitespace
against a table already containing HR yields the uniqueness error and no insert. -/
theorem department_duplicate_name_rejected_witness :
    (mediaGet [("name", .str " HR ")] "name" = some (.str " HR ")
      ∧ strip " HR " ≠ "" ∧ (strip " HR ").length ≤ GENERAL_NAME_MAX_LENGTH
      ∧ dbDept.any (fun d => d.name == strip " HR ") = true)
    ∧ (DepartmentApi.validate_post [("name", .str " HR ")] dbDept
        = [build_error .err_name_already_exists (some "name")]
      ∧ DepartmentApi.collection_on_post [("name", .str " HR ")] dbDept 2 5
        = .unprocessable [build_error .err_name_already_exists (some "name")]) :=
  ⟨⟨by decide, by decide, by decide, by decide⟩,
    department_duplicate_name_rejected [("name", .str " HR ")] dbDept " HR " 2 5
      (by decide) (by decide) (by decide) (by decide)⟩

/-- A database holding two organizations and one security threat that belongs to the
second organization only. -/
def dbThreat : Database :=
  { dbEmpty with
    organizations := [⟨1⟩, ⟨2⟩]
    organization_security_threats := [⟨60, 2, 7, "Phishing", 4, 0⟩] }

/-- C9 (evaluation at the failing input): the GET collection handler for the
security threats of organization 1 returns the threat row of organization 2, because
its query filters on Organization.id without joining the organization table to the
threat table, so every stored threat row survives the filter. -/
theorem security_threat_collection_leaks_other_organizations :
    OrganizationSecurityThreatApi.collection_on_get dbThreat 1
        = some [⟨60, 2, 7, "Phishing", 4, 0⟩]
      ∧ (⟨60, 2, 7, "Phishing", 4, 0⟩ : OrganizationSecurityThreat).organization_id
          ≠ 1 :=
  ⟨by decide, by decide⟩

/-- C10: the serialization used by every system-user endpoint never includes the
hashed password: two users differing only in hashed_password have identical
serialized representations. -/
theorem system_user_serialization_hides_hashed_password (u : SystemUser)
    (p : String) :
    SystemUserApi.custom_asdict { u with hashed_password := p }
      = SystemUserApi.custom_asdict u :=
  rfl

end Knoweak
